import Mathlib

/-!
Shallow embedding of the message-processing and tool-orchestration pipeline of
the telegram-LeoLM-bot repository, together with proofs settling the frozen
claims about its specification.

Each definition is translated from the Python source file named in its doc
comment.  Python `or` on a possibly-`None`/zero value, Python truthiness and
Python exceptions are made explicit (`Option`, `Bool` tests, `Except`).
-/

namespace LeoBot

/-! ## Context store (`bot/session.py`) -/

/-- `bot/session.py`, `Message` dataclass: one persisted conversation turn.
`tokens` is `Optional[int]`. -/
structure Message where
  role : String
  content : String
  tokens : Option Nat
deriving DecidableEq, Repr

/-- Python `a or b` for `a : Optional[int]`: `None` and `0` are falsy, any
other int is returned unchanged. -/
def pyOrNat : Option Nat → Nat → Nat
  | some t, b => if t = 0 then b else t
  | none, b => b

/-- `bot/session.py` line 217: `msg_tokens = msg.tokens or len(msg.content) // 4`. -/
def msgTokens (m : Message) : Nat :=
  pyOrNat m.tokens (m.content.length / 4)

/-- `bot/session.py`, `SessionManager._load_messages` (lines 146-168): select the
`limit` most recent turns (newest first), then reverse into chronological order.
`history` is the full chronological turn list of the session. -/
def load_messages (history : List Message) (limit : Nat := 10) : List Message :=
  ((history.reverse).take limit).reverse

/-- `bot/session.py`, `SessionManager.get_context_window` loop (lines 213-224):
walk the loaded turns newest to oldest (`for msg in reversed(messages)`),
`break` once `total_tokens + msg_tokens > max_tokens`, otherwise
`context.insert(0, {"role": .., "content": ..})` and add the cost.
The walk argument is the newest-first list; the result is chronological. -/
def budget_walk (maxTokens : Nat) : List Message → Nat → List (String × String)
  | [], _ => []
  | msg :: rest, total =>
    let t := msgTokens msg
    if total + t > maxTokens then []
    else budget_walk maxTokens rest (total + t) ++ [(msg.role, msg.content)]

/-- `bot/session.py`, `SessionManager.get_context_window` (lines 203-225). -/
def get_context_window (history : List Message) (maxTokens : Nat) :
    List (String × String) :=
  budget_walk maxTokens (load_messages history).reverse 0

/-! ## Claim C1: token budget suffix -/

/-- C1: for a session with five turns of estimated cost 50 each (oldest to
newest) and `maxTokens = 120`, `get_context_window` returns exactly the two
newest turns, in chronological order, untruncated. -/
theorem context_window_budget_120
    (m1 m2 m3 m4 m5 : Message)
    (h1 : msgTokens m1 = 50) (h2 : msgTokens m2 = 50) (h3 : msgTokens m3 = 50)
    (h4 : msgTokens m4 = 50) (h5 : msgTokens m5 = 50) :
    get_context_window [m1, m2, m3, m4, m5] 120 =
      [(m4.role, m4.content), (m5.role, m5.content)] := by
  simp [get_context_window, load_messages, budget_walk, h1, h2, h3, h4, h5]

/-- Witness for C1 on a concrete five-turn history. -/
theorem context_window_budget_120_witness :
    get_context_window
      [⟨"user", "a", some 50⟩, ⟨"assistant", "b", some 50⟩,
       ⟨"user", "c", some 50⟩, ⟨"assistant", "d", some 50⟩,
       ⟨"user", "e", some 50⟩] 120 =
      [("assistant", "d"), ("user", "e")] :=
  context_window_budget_120 _ _ _ _ _ rfl rfl rfl rfl rfl

/-! ## Claim C5: per-turn token cost estimate -/

/-- The per-turn cost as the claim states it: the recorded token count when
present, else `len(content) / 4` rounded down, with a minimum of 1 whenever the
content is non-empty. -/
def claimed_turn_cost (tokens : Option Nat) (content : String) : Nat :=
  let base := match tokens with
    | some t => t
    | none => content.length / 4
  if content = "" then base else max base 1

/-- C5 counterexample: the turn `{role := "user", content := "ab", tokens := none}`
is non-empty but costs `2 / 4 = 0` in the code (there is no minimum of 1), and
it is accepted against a zero token budget. -/
theorem msgTokens_no_minimum_counterexample :
    msgTokens ⟨"user", "ab", none⟩ = 0 ∧
    claimed_turn_cost none "ab" = 1 ∧
    get_context_window [⟨"user", "ab", none⟩] 0 = [("user", "ab")] := by
  refine ⟨rfl, rfl, ?_⟩
  simp only [get_context_window, load_messages, budget_walk, msgTokens, pyOrNat]
  decide

/-- The amended per-turn cost: the recorded token count when present and
non-zero; otherwise `len(content) / 4` rounded down, with no minimum (a turn
with no recorded count and content shorter than 4 characters costs 0). -/
def amended_turn_cost (tokens : Option Nat) (content : String) : Nat :=
  match tokens with
  | some t => if t ≠ 0 then t else content.length / 4
  | none => content.length / 4

/-- C5 amended: every turn considered by `get_context_window` is costed at its
recorded token count when that is present and non-zero, and at
`len(content) / 4` rounded down otherwise, with no minimum cost. -/
theorem msgTokens_eq_amended_cost (m : Message) :
    msgTokens m = amended_turn_cost m.tokens m.content := by
  cases h : m.tokens with
  | none => simp [msgTokens, pyOrNat, amended_turn_cost, h]
  | some t =>
    by_cases ht : t = 0 <;>
      simp [msgTokens, pyOrNat, amended_turn_cost, h, ht]

/-! ## Rate limiter (`bot/rate_limiter.py`) -/

/-- `bot/config.py`, `RateLimitConfig` (values consumed by `RateLimiter.__init__`). -/
structure RateConfig where
  user_requests : Nat
  user_window : Int
  global_requests : Nat
  global_window : Int
deriving DecidableEq, Repr

/-- Snapshot of the two Redis counters read by `check_limit`: the stored count
(`None` when the key is absent) and the key's TTL as reported by `redis.ttl`
(negative when there is no expiry). -/
structure RedisCounters where
  userCount : Option Nat
  userTTL : Int
  globalCount : Option Nat
  globalTTL : Int
deriving DecidableEq, Repr

/-- `bot/rate_limiter.py` lines 49-57: the global half of `check_limit`.
`if global_count and int(global_count) >= self.global_requests` — an absent key
is falsy; on denial the retry is `ttl if ttl > 0 else self.global_window`. -/
def check_global (cfg : RateConfig) (s : RedisCounters) : Bool × Option Int :=
  match s.globalCount with
  | some g =>
    if cfg.global_requests ≤ g then
      (false, some (if 0 < s.globalTTL then s.globalTTL else cfg.global_window))
    else (true, none)
  | none => (true, none)

/-- `bot/rate_limiter.py`, `RateLimiter.check_limit` (lines 32-57): the user
counter is checked first and denial there returns without reading the global
counter. -/
def check_limit (cfg : RateConfig) (s : RedisCounters) : Bool × Option Int :=
  match s.userCount with
  | some n =>
    if cfg.user_requests ≤ n then
      (false, some (if 0 < s.userTTL then s.userTTL else cfg.user_window))
    else check_global cfg s
  | none => check_global cfg s

/-! ## Claim C2: admission control -/

/-- C2: with a positive configured per-user window, `check_limit`
(i) admits a user at count `limit - 1` when the global count is below its limit;
(ii) denies at count `limit` with a positive retry;
(iii) short-circuits on the user check (the denial is independent of the global
counter state);
(iv) also denies when the user count is under its limit but the global count has
reached the global limit; and
(v), (vi) reports exactly the configured window length of the exceeded scope
whenever the store reports TTL ≤ 0 for that key. -/
theorem check_limit_spec (cfg : RateConfig)
    (hL : 1 ≤ cfg.user_requests)
    (huw : 0 < cfg.user_window) :
    (∀ ut gc gt, (∀ g, gc = some g → g < cfg.global_requests) →
      check_limit cfg ⟨some (cfg.user_requests - 1), ut, gc, gt⟩ = (true, none))
    ∧
    (∀ ut gc gt,
      (check_limit cfg ⟨some cfg.user_requests, ut, gc, gt⟩).1 = false ∧
      ∃ r, (check_limit cfg ⟨some cfg.user_requests, ut, gc, gt⟩).2 = some r ∧
        0 < r)
    ∧
    (∀ n ut gc gt gc' gt', cfg.user_requests ≤ n →
      check_limit cfg ⟨some n, ut, gc, gt⟩ = check_limit cfg ⟨some n, ut, gc', gt'⟩)
    ∧
    (∀ u ut g gt, (∀ n, u = some n → n < cfg.user_requests) →
      cfg.global_requests ≤ g →
      (check_limit cfg ⟨u, ut, some g, gt⟩).1 = false)
    ∧
    (∀ n ut gc gt, cfg.user_requests ≤ n → ut ≤ 0 →
      (check_limit cfg ⟨some n, ut, gc, gt⟩).2 = some cfg.user_window)
    ∧
    (∀ u ut g gt, (∀ n, u = some n → n < cfg.user_requests) →
      cfg.global_requests ≤ g → gt ≤ 0 →
      (check_limit cfg ⟨u, ut, some g, gt⟩).2 = some cfg.global_window) := by
  refine ⟨?_, ?_, ?_, ?_, ?_, ?_⟩
  · intro ut gc gt hg
    have hlt : ¬ cfg.user_requests ≤ cfg.user_requests - 1 := by omega
    simp only [check_limit, hlt, if_false, check_global]
    cases gc with
    | none => rfl
    | some gv =>
      have := hg gv rfl
      simp [Nat.not_le.mpr this]
  · intro ut gc gt
    refine ⟨by simp [check_limit], ?_⟩
    by_cases h : 0 < ut
    · exact ⟨ut, by simp [check_limit, h], h⟩
    · exact ⟨cfg.user_window, by simp [check_limit, h], huw⟩
  · intro n ut gc gt gc' gt' hn
    simp [check_limit, hn]
  · intro u ut g gt hu hge
    cases u with
    | none => simp [check_limit, check_global, hge]
    | some n =>
      have := hu n rfl
      simp [check_limit, Nat.not_le.mpr this, check_global, hge]
  · intro n ut gc gt hn httl
    have h : ¬ 0 < ut := by omega
    simp [check_limit, hn, h]
  · intro u ut g gt hu hge httl
    have hnt : ¬ (0:Int) < gt := by omega
    cases u with
    | none => simp [check_limit, check_global, hge, hnt]
    | some n =>
      have := hu n rfl
      simp [check_limit, Nat.not_le.mpr this, check_global, hge, hnt]

/-- Witness for C2 at the default configuration (20 requests / 60 s per user,
100 requests / 60 s globally). -/
theorem check_limit_spec_witness :
    check_limit ⟨20, 60, 100, 60⟩ ⟨some 19, -1, some 5, 30⟩ = (true, none) ∧
    (check_limit ⟨20, 60, 100, 60⟩ ⟨some 20, -1, some 5, 30⟩).1 = false ∧
    (check_limit ⟨20, 60, 100, 60⟩ ⟨some 20, -1, some 5, 30⟩).2 = some 60 := by
  have h := check_limit_spec ⟨20, 60, 100, 60⟩ (by decide) (by decide)
  refine ⟨h.1 (-1) (some 5) 30 ?_, (h.2.1 (-1) (some 5) 30).1,
    h.2.2.2.2.1 20 (-1) (some 5) 30 (by decide) (by decide)⟩
  intro g hg
  injection hg with hg
  subst hg
  decide

/-! ## JSON values

Python values flowing between the provider, the MCP manager and the handlers
are JSON-shaped (`json.loads` / `json.dumps`).  `Json` is their embedding;
`Json.dumps` mirrors `json.dumps` with its default separators (`", "` and
`": "`).  All inputs the claims evaluate are ASCII, so the `ensure_ascii`
escaping of non-ASCII characters is not exercised. -/

inductive Json where
  | null
  | bool (b : Bool)
  | num (n : Int)
  | str (s : String)
  | arr (elems : List Json)
  | obj (fields : List (String × Json))
deriving Repr

/-- First-match association lookup, the embedding of a Python dict read
(`d[k]` / `d.get(k)`); Python dicts never hold duplicate keys. -/
def assoc_get {α : Type} : List (String × α) → String → Option α
  | [], _ => none
  | (k, v) :: rest, key => if k = key then some v else assoc_get rest key

/-- JSON string escaping as `json.dumps` performs it on the ASCII range. -/
def escape_json_char (c : Char) : String :=
  if c = '"' then "\\\""
  else if c = '\\' then "\\\\"
  else if c = '\n' then "\\n"
  else if c = '\t' then "\\t"
  else if c = '\r' then "\\r"
  else if c.toNat < 32 then "\\u00" ++
    String.mk [(Nat.digitChar (c.toNat / 16)), (Nat.digitChar (c.toNat % 16))]
  else String.singleton c

/-- `json.dumps` on a string value. -/
def dumps_str (s : String) : String :=
  "\"" ++ String.join (s.data.map escape_json_char) ++ "\""

/-- `json.dumps` with Python's default separators. -/
def Json.dumps : Json → String
  | .null => "null"
  | .bool b => if b then "true" else "false"
  | .num n => toString n
  | .str s => dumps_str s
  | .arr elems =>
    "[" ++ String.intercalate ", " (elems.attach.map (fun x => Json.dumps x.1)) ++ "]"
  | .obj fields =>
    "\x7b" ++ String.intercalate ", "
      (fields.attach.map (fun f => dumps_str f.1.1 ++ ": " ++ Json.dumps f.1.2)) ++ "\x7d"
decreasing_by
  all_goals simp_wf
  · have := List.sizeOf_lt_of_mem x.2
    omega
  · have h1 := List.sizeOf_lt_of_mem f.2
    have h2 : sizeOf f.1.2 < sizeOf f.1 := by
      rcases hf : f.1 with ⟨a, b⟩
      simp [hf]
    omega

/-- Python truthiness of a JSON value. -/
def json_truthy : Json → Bool
  | .null => false
  | .bool b => b
  | .num n => n != 0
  | .str s => s ≠ ""
  | .arr xs => ! xs.isEmpty
  | .obj fs => ! fs.isEmpty

/-! ## Tool registry (`bot/mcp/manager.py`) and tool rounds (`bot/handlers.py`) -/

/-- The outcome of running a tool implementation: the returned value, or the
message of the exception it raised. -/
inductive ExecOutcome where
  | ok (value : Json)
  | raised (msg : String)
deriving Repr

/-- `bot/mcp/manager.py`, `MCPManager.execute_tool` (lines 41-51): unknown tool
names raise `ValueError(f"Tool not found: {tool_name}")`; known names dispatch
to the owning plugin (abstracted as `impl`). -/
def execute_tool (registry : List String) (impl : String → Json → ExecOutcome)
    (tool_name : String) (parameters : Json) : ExecOutcome :=
  if tool_name ∈ registry then impl tool_name parameters
  else .raised ("Tool not found: " ++ tool_name)

/-- One element of the list returned by `_handle_tool_calls`:
`{"tool_name": .., "result": ..}`. -/
structure ToolCallResult where
  tool_name : String
  result : String
deriving DecidableEq, Repr

/-- A tool call as the handler receives it: `tool_call.function.name` and the
JSON-encoded `tool_call.function.arguments` string. -/
structure ToolCall where
  name : String
  arguments : String
deriving DecidableEq, Repr

/-- `bot/handlers.py` line 640: `json.dumps(result, ensure_ascii=False) if
isinstance(result, (dict, list)) else str(result)`. -/
def serialize_result : Json → String
  | .obj fs => Json.dumps (.obj fs)
  | .arr xs => Json.dumps (.arr xs)
  | .str s => s
  | .num n => toString n
  | .bool b => if b then "True" else "False"
  | .null => "None"

/-- `bot/handlers.py`, `BotHandlers._handle_tool_calls` (lines 620-653).
`parse` embeds `json.loads`; `none` means the arguments string is not valid
JSON, in which case the exception propagates (`Except.error`) — the
`json.loads` call at line 632 sits *before* the `try` block.  Execution
exceptions (line 646) are caught per call and turned into an
`"Error: <message>"` result. -/
def handle_tool_calls (parse : String → Option Json) (registry : List String)
    (impl : String → Json → ExecOutcome) :
    List ToolCall → Except String (List ToolCallResult × Bool)
  | [] => .ok ([], false)
  | tc :: rest =>
    match parse tc.arguments with
    | none => .error ("json.loads: " ++ tc.arguments)
    | some parameters =>
      let wsHere : Bool := tc.name == "web_search"
      let r : ToolCallResult :=
        match execute_tool registry impl tc.name parameters with
        | .ok v => ⟨tc.name, serialize_result v⟩
        | .raised e => ⟨tc.name, "Error: " ++ e⟩
      match handle_tool_calls parse registry impl rest with
      | .error e => .error e
      | .ok (results, ws) => .ok (r :: results, wsHere || ws)

/-- `s₂` begins with `s₁` (character lists). -/
def starts_with : List Char → List Char → Bool
  | [], _ => true
  | _ :: _, [] => false
  | a :: as, b :: bs => a == b && starts_with as bs

/-- Python `needle in hay` substring test, on character lists. -/
def contains_sub (needle : List Char) : List Char → Bool
  | [] => needle.isEmpty
  | h :: t => starts_with needle (h :: t) || contains_sub needle t

/-- `bot/handlers.py` line 383: `'Error' in result['result']`. -/
def contains_error (s : String) : Bool := contains_sub "Error".data s.data

/-- `bot/handlers.py` line 383: `any('Error' not in result['result'] for ...)`. -/
def has_successful_results (results : List ToolCallResult) : Bool :=
  results.any (fun r => ! contains_error r.result)

/-- `bot/handlers.py` line 388: the fixed reply used when every tool failed. -/
def all_failed_apology : String :=
  "Извините, мне не удалось выполнить запрос, так как необходимые инструменты недоступны. Попробуйте переформулировать вопрос без использования поиска."

/-- `bot/handlers.py` lines 385-447: after a tool round, either skip the
synthesis model call and answer with the fixed apology (when no result is free
of the error marker), or issue the synthesis call (abstracted as `synthesize`,
covering the second `llm_service.process_message` call and the normalization of
its reply).  The boolean records whether that second model call is issued. -/
def resolve_tool_round (results : List ToolCallResult)
    (synthesize : List ToolCallResult → String) : Bool × String :=
  if ! has_successful_results results then (false, all_failed_apology)
  else (true, synthesize results)

/-- `bot/handlers.py` lines 611-618: the handler-level catch-all answers any
escaped exception with a fixed generic apology. -/
def generic_error_reply : String := "❌ Я видимо сплю, попробуй спросить позже."

/-- The reply the user receives given the outcome of the guarded pipeline body. -/
def orchestrator_reply (outcome : Except String String) : String :=
  match outcome with
  | .ok text => text
  | .error _ => generic_error_reply

/-- Every failed execution's result text literally extends `"Error: "`, so the
`'Error' in result` marker test of `bot/handlers.py` line 383 is true on it. -/
theorem contains_error_of_error_result (e : String) :
    contains_error ("Error: " ++ e) = true := by
  have h : ("Error: " ++ e).data =
      'E' :: 'r' :: 'r' :: 'o' :: 'r' :: ':' :: ' ' :: e.data := by
    rw [String.data_append]; rfl
  simp [contains_error, h, contains_sub, starts_with]

/-- Failed execution results begin with `"Error:"`. -/
theorem starts_with_error_of_error_result (e : String) :
    starts_with "Error:".data ("Error: " ++ e).data = true := by
  have h : ("Error: " ++ e).data =
      'E' :: 'r' :: 'r' :: 'o' :: 'r' :: ':' :: ' ' :: e.data := by
    rw [String.data_append]; rfl
  simp [h, starts_with]

/-- When every attempted tool execution raises, every returned result text is
an `"Error: <message>"` string. -/
theorem handle_tool_calls_all_raised (parse : String → Option Json)
    (registry : List String) (impl : String → Json → ExecOutcome) :
    ∀ (tcs : List ToolCall) (results : List ToolCallResult) (ws : Bool),
      handle_tool_calls parse registry impl tcs = .ok (results, ws) →
      (∀ tc ∈ tcs, ∀ a, parse tc.arguments = some a →
        ∃ e, execute_tool registry impl tc.name a = .raised e) →
      ∀ r ∈ results, ∃ e, r.result = "Error: " ++ e := by
  intro tcs
  induction tcs with
  | nil =>
    intro results ws hok _hf r hr
    simp [handle_tool_calls] at hok
    rcases hok with ⟨h1, _⟩
    subst h1
    simp at hr
  | cons tc rest ih =>
    intro results ws hok hf r hr
    rw [handle_tool_calls] at hok
    cases hp : parse tc.arguments with
    | none =>
      simp only [hp] at hok
      exact Except.noConfusion hok
    | some a =>
      obtain ⟨e0, he0⟩ := hf tc (List.mem_cons_self tc rest) a hp
      cases hrec : handle_tool_calls parse registry impl rest with
      | error e =>
        simp only [hp, he0, hrec] at hok
        exact Except.noConfusion hok
      | ok pr =>
        rcases pr with ⟨rs, ws'⟩
        simp only [hp, he0, hrec, Except.ok.injEq, Prod.mk.injEq] at hok
        rcases hok with ⟨hres, _hws⟩
        subst hres
        rcases List.mem_cons.mp hr with h | h
        · exact ⟨e0, by rw [h]⟩
        · exact ih rs ws' hrec (fun tc' htc' => hf tc' (List.mem_cons_of_mem tc htc')) r h

/-! ## Claim C3: all-tools-failed short circuit -/

/-- C3: when every tool execution of a tool round raised, the orchestrator
issues no synthesis model call (first component `false`) and resolves the round
to the fixed apology text. -/
theorem all_tools_failed_short_circuit
    (parse : String → Option Json) (registry : List String)
    (impl : String → Json → ExecOutcome)
    (synthesize : List ToolCallResult → String)
    (tcs : List ToolCall) (results : List ToolCallResult) (ws : Bool)
    (hok : handle_tool_calls parse registry impl tcs = .ok (results, ws))
    (hfail : ∀ tc ∈ tcs, ∀ a, parse tc.arguments = some a →
      ∃ e, execute_tool registry impl tc.name a = .raised e) :
    resolve_tool_round results synthesize = (false, all_failed_apology) := by
  have hall := handle_tool_calls_all_raised parse registry impl tcs results ws hok hfail
  have hfalse : has_successful_results results = false := by
    rw [has_successful_results, List.any_eq_false]
    intro r hr
    rcases hall r hr with ⟨e, he⟩
    simp [he, contains_error_of_error_result]
  simp [resolve_tool_round, hfalse]

/-- Concrete `json.loads` oracle: only the arguments string `"\x7b\x7d"`
(an empty JSON object) parses. -/
def demo_parse : String → Option Json :=
  fun s => if s = "\x7b\x7d" then some (.obj []) else none

/-- Concrete registry holding two tools. -/
def demo_registry : List String := ["alpha", "beta"]

/-- Concrete plugin behaviour: `alpha` raises, every other tool returns "42". -/
def demo_impl : String → Json → ExecOutcome :=
  fun name _ => if name = "alpha" then .raised "boom" else .ok (.str "42")

/-- Witness for C3: one tool call whose execution fails — no synthesis call,
fixed apology. -/
theorem all_tools_failed_short_circuit_witness :
    resolve_tool_round [⟨"alpha", "Error: boom"⟩] (fun _ => "synthesized") =
      (false, all_failed_apology) := by
  refine all_tools_failed_short_circuit demo_parse demo_registry demo_impl _
    [⟨"alpha", "\x7b\x7d"⟩] _ false rfl ?_
  intro tc htc a _hp
  rcases List.mem_singleton.mp htc with h
  subst h
  exact ⟨"boom", rfl⟩

/-! ## Claim C7: one result per call, errors contained -/

/-- C7: (i) when every arguments string parses, `_handle_tool_calls` returns
exactly one result per call, pairwise: the result carries the call's tool name,
and a raising execution yields a result text beginning with `"Error:"` instead
of propagating; (ii) an unknown tool name fails with the distinct
`"Tool not found"` error; (iii)-(v) concretely, for two calls where `alpha`
raises and `beta` succeeds, two results come back, exactly one is
`"Error:"`-prefixed, and the synthesis model call is still issued. -/
theorem tool_round_per_call_results :
    (∀ (parse : String → Option Json) (registry : List String)
       (impl : String → Json → ExecOutcome) (tcs : List ToolCall),
      (∀ tc ∈ tcs, (parse tc.arguments).isSome) →
      ∃ results ws,
        handle_tool_calls parse registry impl tcs = .ok (results, ws) ∧
        results.length = tcs.length ∧
        ∀ p ∈ tcs.zip results, p.2.tool_name = p.1.name ∧
          ∀ a e, parse p.1.arguments = some a →
            execute_tool registry impl p.1.name a = .raised e →
            starts_with "Error:".data p.2.result.data = true)
    ∧
    (∀ (registry : List String) (impl : String → Json → ExecOutcome)
       (name : String) (a : Json), name ∉ registry →
      execute_tool registry impl name a = .raised ("Tool not found: " ++ name))
    ∧
    handle_tool_calls demo_parse demo_registry demo_impl
        [⟨"alpha", "\x7b\x7d"⟩, ⟨"beta", "\x7b\x7d"⟩] =
      .ok ([⟨"alpha", "Error: boom"⟩, ⟨"beta", "42"⟩], false)
    ∧
    (List.filter (fun r => starts_with "Error:".data r.result.data)
      [(⟨"alpha", "Error: boom"⟩ : ToolCallResult), ⟨"beta", "42"⟩]).length = 1
    ∧
    ∀ synthesize,
      (resolve_tool_round [⟨"alpha", "Error: boom"⟩, ⟨"beta", "42"⟩]
        synthesize).1 = true := by
  refine ⟨?_, ?_, rfl, by decide, ?_⟩
  · intro parse registry impl tcs
    induction tcs with
    | nil => intro _; exact ⟨[], false, rfl, rfl, by simp⟩
    | cons tc rest ih =>
      intro hs
      obtain ⟨a, hp⟩ := Option.isSome_iff_exists.mp (hs tc (List.mem_cons_self tc rest))
      obtain ⟨rs, ws, hok, hlen, hzip⟩ :=
        ih (fun tc' htc' => hs tc' (List.mem_cons_of_mem tc htc'))
      cases hex : execute_tool registry impl tc.name a with
      | ok v =>
        refine ⟨⟨tc.name, serialize_result v⟩ :: rs, (tc.name == "web_search") || ws,
          ?_, by simp [hlen], ?_⟩
        · simp only [handle_tool_calls, hp, hex, hok]
        · intro p hp'
          rcases List.mem_cons.mp hp' with h | h
          · subst h
            refine ⟨rfl, ?_⟩
            intro a' e hp'' hex'
            rw [hp] at hp''
            injection hp'' with hp''
            subst hp''
            rw [hex] at hex'
            cases hex'
          · exact hzip p h
      | raised e0 =>
        refine ⟨⟨tc.name, "Error: " ++ e0⟩ :: rs, (tc.name == "web_search") || ws,
          ?_, by simp [hlen], ?_⟩
        · simp only [handle_tool_calls, hp, hex, hok]
        · intro p hp'
          rcases List.mem_cons.mp hp' with h | h
          · subst h
            exact ⟨rfl, fun a' e _ _ => starts_with_error_of_error_result e0⟩
          · exact hzip p h
  · intro registry impl name a hne
    simp [execute_tool, hne]
  · intro synthesize
    have h : has_successful_results [⟨"alpha", "Error: boom"⟩, ⟨"beta", "42"⟩] = true := by
      decide
    simp [resolve_tool_round, h]

/-- Witness for C7 at the concrete two-call scenario. -/
theorem tool_round_per_call_results_witness :
    ∃ results ws,
      handle_tool_calls demo_parse demo_registry demo_impl
        [⟨"alpha", "\x7b\x7d"⟩, ⟨"beta", "\x7b\x7d"⟩] = .ok (results, ws) ∧
      results.length = 2 := by
  obtain ⟨results, ws, hok, hlen, _⟩ :=
    tool_round_per_call_results.1 demo_parse demo_registry demo_impl
      [⟨"alpha", "\x7b\x7d"⟩, ⟨"beta", "\x7b\x7d"⟩] (by decide)
  exact ⟨results, ws, hok, hlen⟩

/-! ## Claim C10: invalid JSON arguments escalate -/

/-- C10: `json.loads` of the arguments string happens before the per-call
`try`; an unparsable arguments string anywhere in the batch makes
`_handle_tool_calls` raise — no result list is produced for any call — and the
handler-level catch-all replies with the fixed generic apology, whatever the
rest of the pipeline (`k`) would have produced. -/
theorem invalid_json_arguments_escalate
    (parse : String → Option Json) (registry : List String)
    (impl : String → Json → ExecOutcome) (tcs : List ToolCall)
    (hbad : ∃ tc ∈ tcs, parse tc.arguments = none) :
    (∃ e, handle_tool_calls parse registry impl tcs = .error e) ∧
    ∀ k : List ToolCallResult × Bool → String,
      orchestrator_reply ((handle_tool_calls parse registry impl tcs).map k) =
        generic_error_reply := by
  have herr : ∀ ts : List ToolCall, (∃ tc ∈ ts, parse tc.arguments = none) →
      ∃ e, handle_tool_calls parse registry impl ts = .error e := by
    intro ts
    induction ts with
    | nil => intro h; rcases h with ⟨tc, htc, _⟩; simp at htc
    | cons tc rest ih =>
      intro h
      cases hp : parse tc.arguments with
      | none => exact ⟨_, by rw [handle_tool_calls, hp]⟩
      | some a =>
        rcases h with ⟨tc', htc', hp'⟩
        rcases List.mem_cons.mp htc' with heq | hmem
        · subst heq; rw [hp] at hp'; cases hp'
        · obtain ⟨e, he⟩ := ih ⟨tc', hmem, hp'⟩
          exact ⟨e, by rw [handle_tool_calls, hp, he]⟩
  obtain ⟨e, he⟩ := herr tcs hbad
  exact ⟨⟨e, he⟩, fun k => by simp [he, orchestrator_reply, Except.map]⟩

/-- Witness for C10: a single call with non-JSON arguments. -/
theorem invalid_json_arguments_escalate_witness :
    (∃ e, handle_tool_calls demo_parse demo_registry demo_impl
        [⟨"alpha", "not json"⟩] = .error e) ∧
    orchestrator_reply ((handle_tool_calls demo_parse demo_registry demo_impl
        [⟨"alpha", "not json"⟩]).map (fun _ => "unreached")) =
      generic_error_reply := by
  have h := invalid_json_arguments_escalate demo_parse demo_registry demo_impl
    [⟨"alpha", "not json"⟩] ⟨⟨"alpha", "not json"⟩, by simp, rfl⟩
  exact ⟨h.1, h.2 _⟩

/-! ## Final reply normalization, persistence and sending
(`bot/handlers.py` lines 526-593) -/

/-- `bot/handlers.py` line 528: the apology substituted when `response_text`
is `None`. -/
def none_reply_fallback : String :=
  "Извините, но я не смог сгенерировать ответ. Пожалуйста, попробуйте еще раз."

/-- `bot/handlers.py` line 593: the fallback sent when the resolved text is
empty or whitespace-only. -/
def empty_reply_fallback : String :=
  "🤔 Я получил пустой ответ. Попробуйте переформулировать вопрос."

/-- `bot/handlers.py` lines 527-528: only a missing (`None`) `response_text` is
replaced; any actual string, empty included, passes through unchanged. -/
def normalize_response_text : Option String → String
  | none => none_reply_fallback
  | some t => t

/-- Python string truthiness. -/
def py_str_truthy (s : String) : Bool := s ≠ ""

/-- Truthiness of Python `s.strip()`: the stripped string is non-empty exactly
when `s` holds at least one non-whitespace character. -/
def strip_truthy (s : String) : Bool :=
  s.data.any (fun c => ! c.isWhitespace)

/-- `bot/handlers.py` lines 554-593: the text handed to `reply_text`.  The
guard at line 555 is `if response_text and response_text.strip():`; otherwise
the fixed empty-reply fallback is sent. -/
def sent_text (response_text : String) : String :=
  if py_str_truthy response_text && strip_truthy response_text
  then response_text else empty_reply_fallback

/-- The pair (content of the persisted final assistant turn, text sent to the
user): `bot/handlers.py` lines 544-550 persist `response_text` verbatim;
lines 554-593 send `sent_text response_text`. -/
def finalize_reply (response_text : String) : String × String :=
  (response_text, sent_text response_text)

/-! ## Claim C6: empty-reply fallback -/

/-- C6 counterexample: for a resolved text of `""`, the persisted assistant
turn keeps the empty string (empty content *is* persisted), while the text
sent to the user is the distinct empty-reply fallback — the persisted and sent
texts are not both one fixed apology string. -/
theorem empty_reply_persisted_counterexample :
    (finalize_reply "").1 = "" ∧
    (finalize_reply "").2 = empty_reply_fallback ∧
    empty_reply_fallback ≠ "" ∧
    none_reply_fallback ≠ empty_reply_fallback := by
  refine ⟨rfl, by decide, by decide, by decide⟩

/-- C6 amended: whenever the final resolved reply text is empty or
whitespace-only, the persisted final assistant turn keeps that text verbatim
(possibly empty) and only the text sent to the user is replaced by the fixed
empty-reply fallback; separately, a missing (`None`) reply is replaced by a
different fixed apology before persisting. -/
theorem empty_reply_finalize (rt : String)
    (h : rt.data.all Char.isWhitespace) :
    finalize_reply rt = (rt, empty_reply_fallback) ∧
    normalize_response_text none = none_reply_fallback := by
  refine ⟨?_, rfl⟩
  have hs : strip_truthy rt = false := by
    rw [strip_truthy, List.any_eq_false]
    intro c hc
    simp [List.all_eq_true.mp h c hc]
  simp [finalize_reply, sent_text, hs]

/-- Witness for C6 amended on the whitespace-only text `" "`. -/
theorem empty_reply_finalize_witness :
    finalize_reply " " = (" ", empty_reply_fallback) :=
  (empty_reply_finalize " " (by decide)).1

/-! ## Plugin registration (`bot/mcp/manager.py`, `register_mcp`) -/

/-- `bot/mcp/manager.py` lines 27-30: extract a tool's name from its schema
dict — `tool["function"]["name"]` when a `"function"` key exists, else
`tool.get("name", "")`.  Shapes on which the Python code would raise are
`Except.error`. -/
def schema_tool_name (tool : Json) : Except String String :=
  match tool with
  | .obj f =>
    match assoc_get f "function" with
    | some (.obj ff) =>
      match assoc_get ff "name" with
      | some (.str s) => .ok s
      | some _ => .error "non-string tool name"
      | none => .error "KeyError: name"
    | some _ => .error "function value is not an object"
    | none =>
      match assoc_get f "name" with
      | some (.str s) => .ok s
      | some _ => .error "non-string tool name"
      | none => .ok ""
  | _ => .error "tool schema is not an object"

/-- Python dict assignment `d[k] = v` on an association list without duplicate
keys: replace the entry in place when the key exists, append otherwise. -/
def dict_set {α : Type} : List (String × α) → String → α → List (String × α)
  | [], k, v => [(k, v)]
  | (k', v') :: rest, k, v =>
    if k' = k then (k, v) :: rest else (k', v') :: dict_set rest k v

/-- `bot/mcp/manager.py` lines 25-33: the tool-registration loop of
`register_mcp`.  `self.tool_registry[tool_name] = (mcp.name, tool_name)` for
each truthy tool name — an unconditional dict assignment, with no collision
check. -/
def register_tools (mcpName : String) (tools : List Json)
    (registry : List (String × String × String)) :
    Except String (List (String × String × String)) :=
  match tools with
  | [] => .ok registry
  | tool :: rest => do
    let name ← schema_tool_name tool
    let registry' := if name ≠ "" then dict_set registry name (mcpName, name)
      else registry
    register_tools mcpName rest registry'

/-- A minimal well-formed tool schema carrying the name `n`. -/
def schema_for (n : String) : Json :=
  .obj [("function", .obj [("name", .str n)])]

/-! ## Claim C9: tool-name collisions -/

/-- C9 counterexample: registering plugin `"B"` with tool `"t"` after plugin
`"A"` already registered `"t"` succeeds (`Except.ok`, no registration error is
surfaced) and silently remaps `"t"` to plugin `"B"`. -/
theorem register_collision_counterexample :
    register_tools "A" [schema_for "t"] [] = .ok [("t", ("A", "t"))] ∧
    register_tools "B" [schema_for "t"] [("t", ("A", "t"))] =
      .ok [("t", ("B", "t"))] := by
  constructor <;> rfl

/-- Looking a key up after a dict assignment yields the assigned value. -/
theorem assoc_get_dict_set {α : Type} (m : List (String × α)) (k : String)
    (v : α) : assoc_get (dict_set m k v) k = some v := by
  induction m with
  | nil => simp [dict_set, assoc_get]
  | cons p rest ih =>
    rcases p with ⟨pk, pv⟩
    by_cases hp : pk = k
    · subst hp
      simp [dict_set, assoc_get]
    · simp [dict_set, assoc_get, hp, ih]

/-- C9 amended: registration performs no collision check — registering a
second plugin contributing an already-registered tool name succeeds without
any error, and the registry afterwards maps the name to the *later* plugin
(last registration silently wins). -/
theorem register_tools_last_wins
    (registry : List (String × String × String)) (mcpA mcpB t : String)
    (ht : t ≠ "") :
    ∃ r1, register_tools mcpA [schema_for t] registry = .ok r1 ∧
      ∃ r2, register_tools mcpB [schema_for t] r1 = .ok r2 ∧
        assoc_get r2 t = some (mcpB, t) := by
  refine ⟨dict_set registry t (mcpA, t), ?_,
    dict_set (dict_set registry t (mcpA, t)) t (mcpB, t), ?_, ?_⟩
  · simp [register_tools, schema_tool_name, schema_for, assoc_get, ht,
      Bind.bind, Except.bind]
  · simp [register_tools, schema_tool_name, schema_for, assoc_get, ht,
      Bind.bind, Except.bind]
  · exact assoc_get_dict_set _ _ _

/-- Witness for C9 amended at the concrete collision of the counterexample. -/
theorem register_tools_last_wins_witness :
    ∃ r1, register_tools "A" [schema_for "t"] [] = .ok r1 ∧
      ∃ r2, register_tools "B" [schema_for "t"] r1 = .ok r2 ∧
        assoc_get r2 "t" = some ("B", "t") :=
  register_tools_last_wins [] "A" "B" "t" (by decide)

/-! ## Session scoping (`bot/session.py`, `get_session`) -/

/-- The state read and written by `SessionManager.get_session`: the Redis
session cache (key `session:{user_id}` — the handler passes the *chat* id as
`user_id`), the `users` table keyed by `telegram_id`, and the `sessions` table
rows `(session id, owner user id)`, most recent first.  Fresh ids come from
the two counters. -/
structure SessionStore where
  cache : List (Nat × Nat)
  users : List (Nat × Nat)
  sessions : List (Nat × Nat)
  nextUserId : Nat
  nextSessionId : Nat
deriving DecidableEq, Repr

/-- First-match lookup in a `Nat`-keyed association list. -/
def nat_assoc_get : List (Nat × Nat) → Nat → Option Nat
  | [], _ => none
  | (k, v) :: rest, key => if k = key then some v else nat_assoc_get rest key

/-- `bot/session.py`, `SessionManager.get_session` (lines 59-108), returning
the resolved session id.  The cache is keyed by the first argument (the chat
id at the call site, `bot/handlers.py` line 324); on a cache miss the user row
is found or created by `telegram_id` (`_get_or_create_user`, lines 110-144)
and the most recent session *owned by that user row* is found or created
(lines 74-85), then cached under the first argument (lines 102-106). -/
def get_session (st : SessionStore) (user_id telegram_id : Nat) :
    Nat × SessionStore :=
  match nat_assoc_get st.cache user_id with
  | some sid => (sid, st)
  | none =>
    let (uid, st1) :=
      match nat_assoc_get st.users telegram_id with
      | some uid => (uid, st)
      | none => (st.nextUserId,
          { st with users := st.users ++ [(telegram_id, st.nextUserId)],
                    nextUserId := st.nextUserId + 1 })
    let (sid, st2) :=
      match st1.sessions.find? (fun p => p.2 == uid) with
      | some p => (p.1, st1)
      | none => (st1.nextSessionId,
          { st1 with sessions := (st1.nextSessionId, uid) :: st1.sessions,
                     nextSessionId := st1.nextSessionId + 1 })
    (sid, { st2 with cache := st2.cache ++ [(user_id, sid)] })

/-- The Redis cache entry written by `get_session` has a 300-second TTL
(`bot/session.py` lines 102-106); after it lapses the key is gone.  This
models the environment dropping the whole cache. -/
def expire_cache (st : SessionStore) : SessionStore :=
  { st with cache := [] }

/-! ## Claim C8: sessions are chat-scoped -/

/-- C8 (code bug): in chat 100, a message from telegram user 1 followed — after
the 5-minute session cache expired — by a message from telegram user 2 resolves
to two *different* sessions, because `get_session` keys the user row and the
session lookup by the sender's `telegram_id` rather than by the chat.  Only
while the chat-keyed cache entry is warm (third conjunct) do the two senders
share a session. -/
theorem chat_session_not_shared_after_cache_expiry :
    (get_session ⟨[], [], [], 1, 1⟩ 100 1).1 = 1 ∧
    (get_session (expire_cache (get_session ⟨[], [], [], 1, 1⟩ 100 1).2)
        100 2).1 = 2 ∧
    (get_session (get_session ⟨[], [], [], 1, 1⟩ 100 1).2 100 2).1 = 1 := by
  refine ⟨rfl, rfl, rfl⟩

/-! ## Backend response normalization
(`bot/llm/provider.py`, `_generate_with_http_messages`, lines 174-232) -/

/-- The OpenAI-shaped tool call built at lines 193-204: `id`, `type`
(always `"function"`), `function.name` and `function.arguments`
(`json.dumps(args)` when the backend supplied a dict, the raw value
otherwise). -/
structure NormToolCall where
  id : String
  type : String
  name : String
  arguments : Json
deriving Repr

/-- The normalized value `_generate_with_http_messages` returns: either a bare
value (the extracted `content` / `response`, or the `json.dumps` fallback
string), or an `OllamaMessage` carrying content plus converted tool calls. -/
inductive NormReply where
  | plain (value : Json)
  | message (content : Json) (toolCalls : List NormToolCall)
deriving Repr

/-- `bot/llm/provider.py` lines 206-219: convert the entry at position `idx`
of the backend's `tool_calls` list.  Entries without a `"function"` key are
skipped (`none`); shapes on which the Python code would raise, or whose name
is missing or not a string, are `Except.error` (outside the modelled domain —
the backend contract supplies an object with a string name). -/
def convert_tool_call (idx : Nat) (tc : Json) :
    Except String (Option NormToolCall) :=
  match tc with
  | .obj f =>
    match assoc_get f "function" with
    | some (.obj ff) =>
      match assoc_get ff "name" with
      | some (.str functionName) =>
        let args := (assoc_get ff "arguments").getD (.obj [])
        let argumentsField : Json :=
          match args with
          | .obj fs => .str (Json.dumps (.obj fs))
          | v => v
        .ok (some ⟨"call_" ++ functionName ++ "_" ++ toString idx, "function",
          functionName, argumentsField⟩)
      | _ => .error "tool call name missing or not a string"
    | some _ => .error "function value is not an object"
    | none => .ok none
  | _ => .error "tool call entry is not an object"

/-- The `for idx, tc in enumerate(tool_calls)` loop of lines 192-219. -/
def convert_tool_calls : Nat → List Json → Except String (List NormToolCall)
  | _, [] => .ok []
  | idx, tc :: rest => do
    let c ← convert_tool_call idx tc
    let cs ← convert_tool_calls (idx + 1) rest
    match c with
    | some c0 => .ok (c0 :: cs)
    | none => .ok cs

/-- `bot/llm/provider.py` lines 176-227: normalization of a `message` object.
A present *and truthy* `tool_calls` list yields an `OllamaMessage` with
`message_data.get("content", "")` and the converted calls; otherwise the bare
`content` (default `""`) is returned.  A truthy `tool_calls` value that is not
a list is outside the modelled domain. -/
def normalize_message (md : List (String × Json)) : Except String NormReply :=
  match assoc_get md "tool_calls" with
  | some tcVal =>
    if json_truthy tcVal then
      match tcVal with
      | .arr tcs => do
        let converted ← convert_tool_calls 0 tcs
        .ok (.message ((assoc_get md "content").getD (.str "")) converted)
      | _ => .error "truthy tool_calls value is not a list"
    else .ok (.plain ((assoc_get md "content").getD (.str "")))
  | none => .ok (.plain ((assoc_get md "content").getD (.str "")))

/-- `bot/llm/provider.py` lines 174-232: a dict with a dict-valued `"message"`
key is normalized through `normalize_message`; otherwise a `"response"` key is
returned bare; any other parsed value — a plain JSON string included — falls
through to `return json.dumps(data)`. -/
def normalize_http_data (data : Json) : Except String NormReply :=
  match data with
  | .obj fields =>
    match assoc_get fields "message" with
    | some (.obj md) => normalize_message md
    | _ =>
      match assoc_get fields "response" with
      | some v => .ok (.plain v)
      | none => .ok (.plain (.str (Json.dumps data)))
  | _ => .ok (.plain (.str (Json.dumps data)))

/-! ## Claim C4: normalization scenarios -/

/-- C4 counterexample: a backend reply that is the plain JSON string
`"hello"` is not a dict, so the code returns `json.dumps(data)` — the
re-serialized, quote-wrapped 7-character string — not the text `hello`. -/
theorem normalize_plain_string_counterexample :
    normalize_http_data (.str "hello") =
      .ok (.plain (.str (Json.dumps (.str "hello")))) ∧
    Json.dumps (.str "hello") = "\"hello\"" ∧
    ("\"hello\"" : String) ≠ "hello" := by
  refine ⟨rfl, ?_, by decide⟩
  have h : Json.dumps (.str "hello") = dumps_str "hello" := by
    simp [Json.dumps]
  rw [h]
  decide

/-- C4 amended: a plain-string backend reply `"hello"` normalizes to the
re-serialized text `"\"hello\""` (not `hello`); the `message.content` reply
normalizes to the text `hi`; and the tool-call reply normalizes to empty text
with one tool call named `search`, with id `call_search_0` (tool name plus
ordinal position) and with the JSON serialization of `{"q": "x"}` as its
arguments string. -/
theorem normalization_scenarios :
    normalize_http_data (.str "hello") = .ok (.plain (.str "\"hello\"")) ∧
    normalize_http_data (.obj [("message", .obj [("content", .str "hi")])]) =
      .ok (.plain (.str "hi")) ∧
    normalize_http_data (.obj [("message", .obj [("content", .str ""),
        ("tool_calls", .arr [.obj [("function", .obj [("name", .str "search"),
          ("arguments", .obj [("q", .str "x")])])]])])]) =
      .ok (.message (.str "")
        [⟨"call_search_0", "function", "search",
          .str (Json.dumps (.obj [("q", .str "x")]))⟩]) ∧
    Json.dumps (.obj [("q", .str "x")]) = "\x7b\"q\": \"x\"\x7d" := by
  refine ⟨?_, rfl, rfl, ?_⟩
  · have h : Json.dumps (.str "hello") = dumps_str "hello" := by
      simp [Json.dumps]
    simp [normalize_http_data, h]
    decide
  · simp [Json.dumps, dumps_str, String.intercalate, String.intercalate.go,
      escape_json_char]
    decide

end LeoBot
